import Mathlib

/-!
Shallow embedding of `dsl.py` (DSL - easy Display Setup for Laptops).

The repository ships a single source file `dsl.py`; the companion modules
`screen` and `gui` are external to the provided sources, so the data they
provide (`ScreenSituation`, `ScreenSetup`, `RelativeScreenPosition`,
connector detection) is modelled from the specification where needed and
marked as such.  Resolutions are kept abstract as a type `α` with decidable
equality; external effects (subprocess calls, the frontend) are passed in as
explicit inputs, and exceptions are modelled with `Except`.
-/

namespace Dsl

/-- Modelled from the spec (the `screen` module is not among the sources):
the relative position of the external screen, one of
LEFT, RIGHT, ABOVE, BELOW, MIRROR. -/
inductive RelativeScreenPosition where
  | LEFT
  | RIGHT
  | ABOVE
  | BELOW
  | MIRROR
deriving DecidableEq, Repr

/-- Modelled from the spec (the `screen` module is not among the sources):
the detected screen situation, reduced to the data `dsl.py` reads from it:
`internalResolutions()` (ordered, preference first) and
`externalResolutions()` (`none` when no external screen is connected). -/
structure ScreenSituation (α : Type) where
  internalResolutions : List α
  externalResolutions : Option (List α)
deriving Repr

/-- Modelled from the spec (the `screen` module is not among the sources):
`commonResolutions()` is the list of resolutions common to both the internal
and the external connector, in reported preference order. -/
def ScreenSituation.commonResolutions {α : Type} [DecidableEq α]
    (sit : ScreenSituation α) : List α :=
  sit.internalResolutions.filter fun r =>
    decide (r ∈ sit.externalResolutions.getD [])

/-- Modelled from the spec (the `screen` module is not among the sources):
a `ScreenSetup` is a chosen internal resolution (optional), a chosen external
resolution (optional), and a relative position. -/
structure ScreenSetup (α : Type) where
  intResolution : Option α
  extResolution : Option α
  relPosition : Option RelativeScreenPosition
deriving Repr

/-- The command-line arguments of `dsl.py` that the setup builder reads:
`--internal-only`, `--external-only` and `--relative-position`
(already resolved from its lower-case CLI spelling to the enum member). -/
structure CmdArgs where
  internal_only : Bool
  external_only : Bool
  rel_position : Option RelativeScreenPosition
deriving Repr

/-- The exceptions `dsl.py` can raise, by raise site:
`configError` is the "You must specify exactly one internal connector."
exception of `situationByConfig`; `configParseError n` is the
"Invalid config, line %d: ..." exception of `loadConfigFile` (carrying the
1-based line number substituted for `%d`); `noCommonResolution` is the
index error raised by `situation.commonResolutions()[0]` on an empty common
list (the spec's `NoCommonResolutionError`); `indexError` is any other
`[0]` on an empty resolution list; `valueError` is `float(...)` failing in
`turnOnBacklight`; `externalToolError` is `subprocess.check_call(xrandrCall)`
failing. -/
inductive DslError where
  | configError (msg : String)
  | configParseError (linenr : Nat)
  | noCommonResolution
  | indexError
  | valueError
  | externalToolError
deriving DecidableEq, Repr

/-- `commonInternalConnectorPrefixes = ['LVDS', 'eDP']` from `dsl.py`. -/
def commonInternalConnectorPrefixes : List String := ["LVDS", "eDP"]

/-- `commonInternalConnectorSuffices = ['', '0', '1', '-0', '-1']` from `dsl.py`. -/
def commonInternalConnectorSuffices : List String := ["", "0", "1", "-0", "-1"]

/-- `commonInternalConnectorNames()` from `dsl.py`: the generator yielding
`p+s` for each p in the prefix list (outer loop) and each s in the
suffix list (inner loop), materialised as a list. -/
def commonInternalConnectorNames : List String :=
  commonInternalConnectorPrefixes.flatMap fun p =>
    commonInternalConnectorSuffices.map fun s => p ++ s

/-- Python's `str.strip()` on the character list of a line: drop whitespace
from both ends.  (Lines are modelled as their character lists so that all
operations are structurally recursive.) -/
def stripChars (cs : List Char) : List Char :=
  ((cs.dropWhile Char.isWhitespace).reverse.dropWhile Char.isWhitespace).reverse

/-- A line that `loadConfigFile` skips: empty after `strip()`, or starting
with `#` after `strip()`. -/
def skippedLine (line : String) : Bool :=
  let l := stripChars line.toList
  l.isEmpty || l.head? == some '#'

/-- `line.index("=")` of `dsl.py`: the position of the first `=` in the
(stripped) line, `none` when there is no `=` (Python raises `ValueError`
then). -/
def eqPos (l : List Char) : Option Nat :=
  l.findIdx? fun c => c = '='

/-- The `try` block of `loadConfigFile` applied to one (already
non-skipped) line: find the first `=` in the stripped line, take the
stripped text before it as the key, and shell-split the text after it
(`split` stands for `shlex.split`; it returns `none` when splitting fails,
e.g. on a quoting issue — Python raises then).  Returns `none` exactly when
the line makes the `try` block raise. -/
def lineKV (split : String → Option (List String)) (line : String) :
    Option (String × List String) :=
  let l := stripChars line.toList
  match eqPos l with
  | none => none
  | some pos =>
    match split (l.drop (pos + 1)).asString with
    | none => none
    | some toks => some ((stripChars (l.take pos)).asString, toks)

/-- The line loop of `loadConfigFile`: `linenr` is incremented once per
physical line (so the first line of the file is line 1), empty and comment
lines are skipped, every other line must parse via `lineKV` or the loop
raises `configParseError linenr`, and a parsed `key = value` pair overwrites
the accumulated dictionary entry for `key`. -/
def loadLines (split : String → Option (List String)) :
    List String → Nat → (String → Option (List String)) →
    Except DslError (String → Option (List String))
  | [], _, result => .ok result
  | line :: rest, linenr, result =>
    if skippedLine line then
      loadLines split rest (linenr + 1) result
    else
      match lineKV split line with
      | none => .error (.configParseError linenr)
      | some kv =>
        loadLines split rest (linenr + 1)
          (fun k => if k = kv.1 then some kv.2 else result k)

/-- `loadConfigFile` of `dsl.py`.  The file is `none` when
`os.path.exists(filename)` is false (then the empty mapping is returned and
nothing is read); otherwise it is the list of the file's physical lines.
The resulting dictionary is modelled as a function from keys to optional
token lists (`none` = key absent, i.e. `k not in result`). -/
def loadConfigFile (split : String → Option (List String))
    (file : Option (List String)) :
    Except DslError (String → Option (List String)) :=
  match file with
  | none => .ok fun _ => none
  | some lines => loadLines split lines 1 (fun _ => none)

/-- `situationByConfig` of `dsl.py`, up to the external
`screen.ScreenSituation` constructor: it returns the pair of arguments
passed to that constructor — the internal-connector candidate list and
`config.get('externalConnectors')` — or raises when `internalConnector`
is configured with a token count different from one. -/
def situationByConfig (config : String → Option (List String)) :
    Except DslError (List String × Option (List String)) :=
  match config "internalConnector" with
  | some l =>
    if l.length ≠ 1 then
      .error (.configError "You must specify exactly one internal connector.")
    else
      .ok (l, config "externalConnectors")
  | none =>
    .ok (commonInternalConnectorNames, config "externalConnectors")

/-- The "construct the ScreenSetup" block of `dsl.py` (`__main__`,
the `setup = ...` decision chain): `frontendSetup` is what
`frontend.setup(situation)` would return (`none` = the user cancelled),
consulted only on the interactive branch.  `.ok none` therefore means
user cancellation; `[0]` on an empty list raises. -/
def buildSetup {α : Type} [DecidableEq α] (args : CmdArgs)
    (sit : ScreenSituation α) (frontendSetup : Option (ScreenSetup α)) :
    Except DslError (Option (ScreenSetup α)) :=
  if !args.internal_only && sit.externalResolutions.isSome then
    -- there's an external screen connected that we may want to use
    if args.external_only then
      match (sit.externalResolutions.getD []).head? with
      | some r => .ok (some ⟨none, some r, none⟩)
      | none => .error .indexError
    else
      match args.rel_position with
      | some relPos =>
        if relPos = .MIRROR then
          match sit.commonResolutions.head? with
          | some r => .ok (some ⟨some r, some r, some relPos⟩)
          | none => .error .noCommonResolution
        else
          match sit.internalResolutions.head? with
          | some ri =>
            match (sit.externalResolutions.getD []).head? with
            | some re => .ok (some ⟨some ri, some re, some relPos⟩)
            | none => .error .indexError
          | none => .error .indexError
      | none =>
        -- ask the user
        .ok frontendSetup
  else
    -- use first resolution of internal connector
    match sit.internalResolutions.head? with
    | some r => .ok (some ⟨some r, none, none⟩)
    | none => .error .indexError

/-- Outcome of one blocking subprocess call: it succeeded, the binary was
absent (`FileNotFoundError`), or it exited non-zero
(`subprocess.CalledProcessError`). -/
inductive SubprocessResult where
  | ok
  | notFound
  | exitError
deriving DecidableEq, Repr

/-- Outcome of `subprocess.check_output(["xbacklight", "-get"])` followed by
`float(... .strip())`: the call can fail like any subprocess call, and on
success `output (some v)` carries the parsed brightness (as a rational)
while `output none` means the stripped output does not parse as a decimal
number (Python's `float` raises `ValueError`). -/
inductive XbacklightGet where
  | notFound
  | exitError
  | output (v : Option ℚ)
deriving DecidableEq, Repr

/-- What `turnOnBacklight` did: the messages printed, and the argument list
of the `xbacklight -set` call when one was attempted. -/
structure BacklightEffects where
  messages : List String
  setCmd : Option (List String)
deriving DecidableEq, Repr

/-- `turnOnBacklight` of `dsl.py`: query the brightness; if it is zero,
set it to 100.  `FileNotFoundError` and `subprocess.CalledProcessError`
(from either call) are caught and printed; any other exception — here only
the `ValueError` of `float` — propagates out. -/
def turnOnBacklight (query : XbacklightGet) (setResult : SubprocessResult) :
    Except DslError BacklightEffects :=
  match query with
  | .notFound =>
    .ok ⟨["xbacklight has not been found, unable to turn your laptop backlight on."], none⟩
  | .exitError =>
    .ok ⟨["xbacklight returned an error while attempting to turn your laptop backlight on."], none⟩
  | .output none => .error .valueError
  | .output (some v) =>
    if v = 0 then
      -- it's completely turned off, we better enable it
      match setResult with
      | .ok => .ok ⟨[], some ["xbacklight", "-set", "100"]⟩
      | .notFound =>
        .ok ⟨["xbacklight has not been found, unable to turn your laptop backlight on."],
          some ["xbacklight", "-set", "100"]⟩
      | .exitError =>
        .ok ⟨["xbacklight returned an error while attempting to turn your laptop backlight on."],
          some ["xbacklight", "-set", "100"]⟩
    else
      .ok ⟨[], none⟩

/-- How the `dsl.py` process terminates: falling off the end of `__main__`
(exit status 0), `sys.exit(1)` on user cancellation (a `SystemExit`, not
caught by `except Exception`), or an exception re-raised by the top-level
handler (non-zero exit status). -/
inductive ExitKind where
  | success
  | cancel
  | exception (e : DslError)
deriving DecidableEq, Repr

/-- Observable outcome of one run of `__main__`: how the process exits,
whether `subprocess.check_call(xrandrCall)` was invoked, which error (if
any) was routed through `frontend.error` before being re-raised, whether
`turnOnBacklight` ran, and its printed messages / `-set` invocation. -/
structure MainResult where
  exit : ExitKind
  xrandrCalled : Bool
  errorShown : Option DslError
  backlightRan : Bool
  backlightMessages : List String
  backlightSetCmd : Option (List String)
deriving Repr

/-- The body of `__main__` in `dsl.py` after argument parsing, with every
external interaction passed in: `split` stands for `shlex.split`,
`configFile` for the content of `~/.dsl.conf` (`none` = absent), `sit` for
the `ScreenSituation` the external `screen` module detects, `frontendSetup`
for the result of `frontend.setup(situation)`, `xrandrResult` for the
outcome of `subprocess.check_call(xrandrCall)`, and `blQuery` / `blSet` for
the two `xbacklight` calls.  Any exception is shown via `frontend.error`
and re-raised (`ExitKind.exception`); `sys.exit(1)` on cancellation is a
`SystemExit` and bypasses the handler. -/
def runMain {α : Type} [DecidableEq α] (split : String → Option (List String))
    (configFile : Option (List String)) (args : CmdArgs)
    (sit : ScreenSituation α) (frontendSetup : Option (ScreenSetup α))
    (xrandrResult : SubprocessResult) (blQuery : XbacklightGet)
    (blSet : SubprocessResult) : MainResult :=
  match loadConfigFile split configFile with
  | .error e => ⟨.exception e, false, some e, false, [], none⟩
  | .ok config =>
    match situationByConfig config with
    | .error e => ⟨.exception e, false, some e, false, [], none⟩
    | .ok _ =>
      match buildSetup args sit frontendSetup with
      | .error e => ⟨.exception e, false, some e, false, [], none⟩
      | .ok none => ⟨.cancel, false, none, false, [], none⟩
      | .ok (some setup) =>
        match xrandrResult with
        | .ok =>
          if setup.extResolution = none then
            match turnOnBacklight blQuery blSet with
            | .error e => ⟨.exception e, true, some e, true, [], none⟩
            | .ok eff => ⟨.success, true, none, true, eff.messages, eff.setCmd⟩
          else
            ⟨.success, true, none, false, [], none⟩
        | _ =>
          ⟨.exception .externalToolError, true, some .externalToolError, false, [], none⟩

/-- The mapping a fully well-formed config file denotes, as described by the
spec (refinement reference for `loadConfigFile`): a key `k` is bound to the
token list of the last non-skipped line whose (trimmed) key is `k`, and
unbound when no such line exists. -/
def configLookup (split : String → Option (List String)) (lines : List String)
    (k : String) : Option (List String) :=
  ((lines.filterMap fun line =>
      if skippedLine line then none else lineKV split line).reverse.find?
    fun kv => kv.1 == k).map Prod.snd

/-! ## Theorems -/

lemma stripChars_subset (cs : List Char) : stripChars cs ⊆ cs := by
  intro c hc
  unfold stripChars at hc
  rw [List.mem_reverse] at hc
  have hc₂ := (List.dropWhile_sublist _).subset hc
  rw [List.mem_reverse] at hc₂
  exact (List.dropWhile_sublist _).subset hc₂

/-- Claim C1: with `--internal-only`, or when the situation reports no
external resolutions (`externalResolutions() is None`), the constructed
`ScreenSetup` has the internal connector's first (preferred) resolution and
no external resolution, regardless of `--external-only` and
`--relative-position`. -/
theorem buildSetup_internal_only_or_no_external {α : Type} [DecidableEq α]
    (args : CmdArgs) (sit : ScreenSituation α) (fe : Option (ScreenSetup α))
    (r : α) (rs : List α)
    (hcond : args.internal_only = true ∨ sit.externalResolutions = none)
    (hint : sit.internalResolutions = r :: rs) :
    buildSetup args sit fe = .ok (some ⟨some r, none, none⟩) := by
  rcases hcond with h | h <;> simp [buildSetup, h, hint]

/-- Witness for C1 at a concrete input. -/
theorem buildSetup_internal_only_or_no_external_witness :
    buildSetup (α := Nat) ⟨true, false, none⟩ ⟨[10, 20], some [30]⟩ none
      = .ok (some ⟨some 10, none, none⟩) :=
  buildSetup_internal_only_or_no_external _ _ _ 10 [20] (Or.inl rfl) rfl

/-- Claim C2: with `--relative-position mirror`, an external screen
available, and neither `--internal-only` nor `--external-only`: when the
internal and external connectors share no resolution the builder fails with
the common-resolution error, and when the common-resolution list is
non-empty its first entry is used as both the internal and the external
resolution. -/
theorem buildSetup_mirror {α : Type} [DecidableEq α]
    (args : CmdArgs) (sit : ScreenSituation α) (fe : Option (ScreenSetup α))
    (l : List α)
    (hpos : args.rel_position = some RelativeScreenPosition.MIRROR)
    (hio : args.internal_only = false) (heo : args.external_only = false)
    (hext : sit.externalResolutions = some l) :
    ((∀ r ∈ sit.internalResolutions, r ∉ l) →
        buildSetup args sit fe = .error .noCommonResolution) ∧
    ∀ r rs, sit.commonResolutions = r :: rs →
        buildSetup args sit fe =
          .ok (some ⟨some r, some r, some RelativeScreenPosition.MIRROR⟩) := by
  constructor
  · intro h
    have hc : sit.commonResolutions = [] := by
      rw [ScreenSituation.commonResolutions, List.filter_eq_nil_iff]
      intro a ha
      simp only [hext, Option.getD_some, decide_eq_true_eq]
      exact h a ha
    simp [buildSetup, hio, heo, hext, hpos, hc]
  · intro r rs hc
    simp [buildSetup, hio, heo, hext, hpos, hc]

/-- Witness for C2 at a concrete input (shared resolution `7`). -/
theorem buildSetup_mirror_witness :
    buildSetup (α := Nat) ⟨false, false, some RelativeScreenPosition.MIRROR⟩
      ⟨[5, 7], some [7, 9]⟩ none
      = .ok (some ⟨some 7, some 7, some RelativeScreenPosition.MIRROR⟩) :=
  (buildSetup_mirror _ _ _ [7, 9] rfl rfl rfl rfl).2 7 [] rfl

/-- Claim C3: with `--external-only` (and not `--internal-only`) and an
external resolution available, the constructed `ScreenSetup` has the
external connector's first resolution and no internal resolution. -/
theorem buildSetup_external_only {α : Type} [DecidableEq α]
    (args : CmdArgs) (sit : ScreenSituation α) (fe : Option (ScreenSetup α))
    (r : α) (rs : List α)
    (heo : args.external_only = true) (hio : args.internal_only = false)
    (hext : sit.externalResolutions = some (r :: rs)) :
    buildSetup args sit fe = .ok (some ⟨none, some r, none⟩) := by
  simp [buildSetup, hio, heo, hext]

/-- Witness for C3 at a concrete input. -/
theorem buildSetup_external_only_witness :
    buildSetup (α := Nat) ⟨false, true, none⟩ ⟨[10], some [30, 40]⟩ none
      = .ok (some ⟨none, some 30, none⟩) :=
  buildSetup_external_only _ _ _ 30 [40] rfl rfl rfl

/-- Claim C4: `situationByConfig` fails with the `ConfigError` when
`internalConnector` is configured with a token count different from one;
with exactly one token that token is the sole internal-connector candidate
passed on (the common-name search is bypassed); with the key absent the
LVDS/eDP cross product `commonInternalConnectorNames` is passed instead. -/
theorem situationByConfig_internalConnector
    (config : String → Option (List String)) :
    (∀ l, config "internalConnector" = some l → l.length ≠ 1 →
      situationByConfig config =
        .error (.configError "You must specify exactly one internal connector.")) ∧
    (∀ t, config "internalConnector" = some [t] →
      situationByConfig config = .ok ([t], config "externalConnectors")) ∧
    (config "internalConnector" = none →
      situationByConfig config =
        .ok (commonInternalConnectorNames, config "externalConnectors")) := by
  refine ⟨fun l hl hlen => ?_, fun t ht => ?_, fun h => ?_⟩ <;>
    simp [situationByConfig, *]

/-- Witness for C4 at a concrete input (exactly one configured token). -/
theorem situationByConfig_internalConnector_witness :
    situationByConfig
        (fun k => if k = "internalConnector" then some ["FOO-1"] else none)
      = .ok (["FOO-1"], none) :=
  (situationByConfig_internalConnector _).2.1 "FOO-1" rfl

lemma loadLines_ok_lookup (split : String → Option (List String))
    (lines : List String) :
    ∀ (n : Nat) (acc : String → Option (List String)),
    (∀ line ∈ lines, skippedLine line = true ∨ (lineKV split line).isSome) →
    ∃ m, loadLines split lines n acc = .ok m ∧
      ∀ k, m k =
        match ((lines.filterMap fun line =>
            if skippedLine line then none else lineKV split line).reverse.find?
          fun kv => kv.1 == k) with
        | some kv => some kv.2
        | none => acc k := by
  induction lines with
  | nil => exact fun n acc _ => ⟨acc, rfl, fun k => rfl⟩
  | cons line rest ih =>
    intro n acc h
    by_cases hs : skippedLine line = true
    · obtain ⟨m, hm, hk⟩ :=
        ih (n + 1) acc (fun l hl => h l (List.mem_cons_of_mem _ hl))
      refine ⟨m, ?_, fun k => ?_⟩
      · simpa [loadLines, hs] using hm
      · rw [hk k]; simp [hs]
    · rcases hkv : lineKV split line with _ | kv
      · rcases h line (List.mem_cons_self line rest) with h' | h'
        · exact absurd h' hs
        · rw [hkv] at h'; simp at h'
      · obtain ⟨m, hm, hk⟩ :=
          ih (n + 1) (fun k => if k = kv.1 then some kv.2 else acc k)
            (fun l hl => h l (List.mem_cons_of_mem _ hl))
        refine ⟨m, ?_, fun k => ?_⟩
        · simpa [loadLines, hs, hkv] using hm
        · rw [hk k]
          simp only [hs, hkv, List.filterMap_cons, if_neg, Bool.false_eq_true,
            not_false_iff, List.reverse_cons, List.find?_append]
          cases hfind : ((rest.filterMap fun l =>
              if skippedLine l then none else lineKV split l).reverse.find?
            fun kv' => kv'.1 == k) with
          | some kv' => simp [hfind, Option.or]
          | none =>
            simp only [hfind, Option.none_or]
            by_cases hkk : kv.1 = k
            · simp [List.find?, hkk]
            · have : (kv.1 == k) = false := by simpa using hkk
              simp [List.find?, this, Ne.symm hkk]

/-- Claim C5: a missing config file yields the empty mapping, and for a file
whose every line is blank, a comment, or well-formed (`=` present and the
value part shell-splittable), `loadConfigFile` succeeds and the resulting
mapping agrees with `configLookup`: exactly the trimmed pre-`=` keys are
bound, each to the split of the corresponding post-`=` text (the last such
line when a key repeats). -/
theorem loadConfigFile_wellformed (split : String → Option (List String))
    (lines : List String)
    (h : ∀ line ∈ lines, skippedLine line = true ∨ (lineKV split line).isSome) :
    loadConfigFile split none = .ok (fun _ => none) ∧
    ∃ m, loadConfigFile split (some lines) = .ok m ∧
      ∀ k, m k = configLookup split lines k := by
  refine ⟨rfl, ?_⟩
  obtain ⟨m, hm, hk⟩ := loadLines_ok_lookup split lines 1 (fun _ => none) h
  refine ⟨m, hm, fun k => ?_⟩
  rw [hk k]
  unfold configLookup
  cases hfind : ((lines.filterMap fun line =>
      if skippedLine line then none else lineKV split line).reverse.find?
    fun kv => kv.1 == k) <;> simp [hfind]

/-- Witness for C5 at a concrete input. -/
theorem loadConfigFile_wellformed_witness :
    loadConfigFile (fun s => some [s]) none = .ok (fun _ => none) ∧
    ∃ m, loadConfigFile (fun s => some [s]) (some ["# c", "", "a = b"]) = .ok m ∧
      ∀ k, m k = configLookup (fun s => some [s]) ["# c", "", "a = b"] k :=
  loadConfigFile_wellformed _ _ (by decide)

/-- Claim C9: when the same key appears on more than one well-formed line,
the returned mapping carries the token list of the last such line; no error
is raised for the duplicate. -/
theorem loadConfigFile_duplicate_last_wins (split : String → Option (List String))
    (pre post : List String) (dupLine lastLine : String) (k : String)
    (v₁ v₂ : List String)
    (hgood : ∀ line ∈ pre ++ lastLine :: post,
      skippedLine line = true ∨ (lineKV split line).isSome)
    (_hdup : dupLine ∈ pre) (_hdupSkip : skippedLine dupLine = false)
    (_hdupKV : lineKV split dupLine = some (k, v₁))
    (hlastSkip : skippedLine lastLine = false)
    (hlastKV : lineKV split lastLine = some (k, v₂))
    (hpost : ∀ line ∈ post, skippedLine line = false →
      ∀ kv, lineKV split line = some kv → kv.1 ≠ k) :
    ∃ m, loadConfigFile split (some (pre ++ lastLine :: post)) = .ok m ∧
      m k = some v₂ := by
  obtain ⟨m, hm, hk⟩ :=
    loadLines_ok_lookup split (pre ++ lastLine :: post) 1 (fun _ => none) hgood
  refine ⟨m, hm, ?_⟩
  rw [hk k]
  have hpostnone : ((post.filterMap fun l =>
      if skippedLine l then none else lineKV split l).reverse.find?
    fun kv => kv.1 == k) = none := by
    rw [List.find?_eq_none]
    intro kv hkv
    rw [List.mem_reverse, List.mem_filterMap] at hkv
    obtain ⟨l, hl, hif⟩ := hkv
    by_cases hsl : skippedLine l = true
    · simp [hsl] at hif
    · rw [if_neg hsl] at hif
      have := hpost l hl (by simpa using hsl) kv hif
      simpa using this
  simp only [List.filterMap_append, List.filterMap_cons, hlastSkip,
    Bool.false_eq_true, if_false, hlastKV, List.reverse_append,
    List.reverse_cons, List.find?_append, hpostnone, Option.none_or]
  simp [List.find?]

/-- Witness for C9 at a concrete input: key `a` bound twice, last wins. -/
theorem loadConfigFile_duplicate_last_wins_witness :
    ∃ m, loadConfigFile (fun s => some [s]) (some (["a= 1"] ++ "a= 2" :: [])) =
      .ok m ∧ m "a" = some [" 2"] :=
  loadConfigFile_duplicate_last_wins (fun s => some [s]) ["a= 1"] []
    "a= 1" "a= 2" "a" [" 1"] [" 2"] (by decide) (by decide) (by decide)
    (by decide) (by decide) (by decide) (by simp)

lemma loadLines_error_at (split : String → Option (List String)) (bad : String)
    (rest : List String) (hbadSkip : skippedLine bad = false)
    (hbadKV : lineKV split bad = none) :
    ∀ (pre : List String) (n : Nat) (acc : String → Option (List String)),
    (∀ line ∈ pre, skippedLine line = true ∨ (lineKV split line).isSome) →
    loadLines split (pre ++ bad :: rest) n acc =
      .error (.configParseError (n + pre.length)) := by
  intro pre
  induction pre with
  | nil =>
    intro n acc _
    simp [loadLines, hbadSkip, hbadKV]
  | cons line pre ih =>
    intro n acc h
    have harith : n + (line :: pre).length = (n + 1) + pre.length := by
      simp; omega
    rw [harith, List.cons_append]
    by_cases hs : skippedLine line = true
    · rw [show loadLines split (line :: (pre ++ bad :: rest)) n acc =
          loadLines split (pre ++ bad :: rest) (n + 1) acc by
        simp [loadLines, hs]]
      exact ih (n + 1) acc (fun l hl => h l (List.mem_cons_of_mem _ hl))
    · rcases h line (List.mem_cons_self line pre) with h' | h'
      · exact absurd h' hs
      · rcases hkv : lineKV split line with _ | kv
        · rw [hkv] at h'; simp at h'
        · rw [show loadLines split (line :: (pre ++ bad :: rest)) n acc =
              loadLines split (pre ++ bad :: rest) (n + 1)
                (fun x => if x = kv.1 then some kv.2 else acc x) by
            simp [loadLines, hs, hkv]]
          exact ih (n + 1) _ (fun l hl => h l (List.mem_cons_of_mem _ hl))

/-- Claim C6: a non-skipped line without `=` makes `loadConfigFile` raise
the parse error carrying that line's 1-based physical line number, with
skipped blank and comment lines still counted in the numbering (the line
shown is the first offending one; processing stops there). -/
theorem loadConfigFile_parse_error_line (split : String → Option (List String))
    (pre rest : List String) (bad : String)
    (hpre : ∀ line ∈ pre, skippedLine line = true ∨ (lineKV split line).isSome)
    (hbadSkip : skippedLine bad = false)
    (hnoeq : '=' ∉ bad.toList) :
    loadConfigFile split (some (pre ++ bad :: rest)) =
      .error (.configParseError (pre.length + 1)) := by
  have hKV : lineKV split bad = none := by
    have he : eqPos (stripChars bad.data) = none := by
      rw [eqPos, List.findIdx?_eq_none_iff]
      intro c hc
      have hcb : c ∈ bad.toList := stripChars_subset _ hc
      simp only [decide_eq_false_iff_not]
      rintro rfl
      exact hnoeq hcb
    simp [lineKV, he]
  rw [show loadConfigFile split (some (pre ++ bad :: rest)) =
      loadLines split (pre ++ bad :: rest) 1 (fun _ => none) from rfl]
  rw [loadLines_error_at split bad rest hbadSkip hKV pre 1 _ hpre]
  congr 2
  omega

/-- Witness for C6 at a concrete input: a skipped comment line followed by a
line without `=`; the error names physical line 2. -/
theorem loadConfigFile_parse_error_line_witness :
    loadConfigFile (fun s => some [s]) (some (["# x"] ++ "bad" :: [])) =
      .error (.configParseError 2) :=
  loadConfigFile_parse_error_line (fun s => some [s]) ["# x"] [] "bad"
    (by decide) (by decide) (by decide)

/-- Claim C7: the process model exits `success` (status 0) only with no
error shown; an exception anywhere is first routed through
`frontend.error` (`errorShown`) and then re-raised (`ExitKind.exception`,
a non-zero exit); frontend cancellation (`buildSetup` yielding `.ok none`,
which happens exactly when the interactive branch is taken and the frontend
returns no setup) exits with status 1 without calling xrandr and without
reporting an error; and the full happy path exits `success`. -/
theorem runMain_exit_codes {α : Type} [DecidableEq α]
    (split : String → Option (List String)) (cfile : Option (List String))
    (args : CmdArgs) (sit : ScreenSituation α) (fe : Option (ScreenSetup α))
    (xr : SubprocessResult) (blq : XbacklightGet) (bls : SubprocessResult) :
    (∀ e, (runMain split cfile args sit fe xr blq bls).exit = .exception e →
      (runMain split cfile args sit fe xr blq bls).errorShown = some e) ∧
    ((runMain split cfile args sit fe xr blq bls).exit = .success →
      (runMain split cfile args sit fe xr blq bls).errorShown = none) ∧
    (∀ config sc, loadConfigFile split cfile = .ok config →
      situationByConfig config = .ok sc →
      buildSetup args sit fe = .ok none →
      runMain split cfile args sit fe xr blq bls =
        ⟨.cancel, false, none, false, [], none⟩) ∧
    (∀ config sc setup eff, loadConfigFile split cfile = .ok config →
      situationByConfig config = .ok sc →
      buildSetup args sit fe = .ok (some setup) → xr = .ok →
      (setup.extResolution = none → turnOnBacklight blq bls = .ok eff) →
      (runMain split cfile args sit fe xr blq bls).exit = .success) := by
  refine ⟨?_, ?_, ?_, ?_⟩
  · intro e
    unfold runMain
    repeat' split
    all_goals intro h
    all_goals cases h
    all_goals rfl
  · unfold runMain
    repeat' split
    all_goals intro h
    all_goals cases h
    all_goals rfl
  · intro config sc hcfg hsit hcancel
    simp only [runMain, hcfg, hsit, hcancel]
  · intro config sc setup eff hcfg hsit hsetup hxr hbl
    simp only [runMain, hcfg, hsit, hsetup, hxr]
    by_cases hres : setup.extResolution = none
    · simp only [hres, if_pos, hbl hres]
    · simp only [if_neg hres]

/-- Witness for C7 at a concrete input: the user cancels the interactive
setup. -/
theorem runMain_exit_codes_witness :
    runMain (α := Nat) (fun s => some [s]) none ⟨false, false, none⟩
      ⟨[1], some [2]⟩ none .ok (.output (some 1)) .ok =
      ⟨.cancel, false, none, false, [], none⟩ :=
  (runMain_exit_codes (α := Nat) (fun s => some [s]) none ⟨false, false, none⟩
      ⟨[1], some [2]⟩ none .ok (.output (some 1)) .ok).2.2.1
    (fun _ => none) (commonInternalConnectorNames, none) rfl rfl rfl

/-- Claim C8: the backlight routine runs exactly when the applied setup has
no external resolution; the `-set 100` call is attempted only when the
queried brightness equals zero; and an absent or failing `xbacklight` is
reported as a printed message while the run still exits successfully. -/
theorem backlight_policy {α : Type} [DecidableEq α]
    (split : String → Option (List String)) (cfile : Option (List String))
    (args : CmdArgs) (sit : ScreenSituation α) (fe : Option (ScreenSetup α))
    (blq : XbacklightGet) (bls : SubprocessResult) :
    (∀ config sc setup, loadConfigFile split cfile = .ok config →
      situationByConfig config = .ok sc →
      buildSetup args sit fe = .ok (some setup) →
      ((runMain split cfile args sit fe .ok blq bls).backlightRan = true ↔
        setup.extResolution = none)) ∧
    (∀ q s eff, turnOnBacklight q s = .ok eff → eff.setCmd ≠ none →
      q = .output (some 0) ∧ eff.setCmd = some ["xbacklight", "-set", "100"]) ∧
    (∃ m, ∀ s, turnOnBacklight XbacklightGet.notFound s = .ok ⟨[m], none⟩) ∧
    (∃ m, ∀ s, turnOnBacklight XbacklightGet.exitError s = .ok ⟨[m], none⟩) ∧
    (∀ config sc setup, loadConfigFile split cfile = .ok config →
      situationByConfig config = .ok sc →
      buildSetup args sit fe = .ok (some setup) →
      setup.extResolution = none →
      blq = .notFound ∨ blq = .exitError →
      (runMain split cfile args sit fe .ok blq bls).exit = .success ∧
      (runMain split cfile args sit fe .ok blq bls).backlightMessages ≠ []) := by
  refine ⟨?_, ?_, ⟨_, fun s => rfl⟩, ⟨_, fun s => rfl⟩, ?_⟩
  · intro config sc setup hcfg hsit hsetup
    simp only [runMain, hcfg, hsit, hsetup]
    by_cases hres : setup.extResolution = none
    · rcases htb : turnOnBacklight blq bls with e | eff <;> simp [htb, hres]
    · simp [hres]
  · intro q s eff htb hne
    rcases q with _ | _ | v
    · simp only [turnOnBacklight] at htb
      cases htb; simp at hne
    · simp only [turnOnBacklight] at htb
      cases htb; simp at hne
    · rcases v with _ | v
      · simp [turnOnBacklight] at htb
      · simp only [turnOnBacklight] at htb
        by_cases hv : v = 0
        · rw [if_pos hv] at htb
          rcases s with _ | _ | _ <;> cases htb <;> exact ⟨by rw [hv], rfl⟩
        · rw [if_neg hv] at htb
          cases htb; simp at hne
  · intro config sc setup hcfg hsit hsetup hres hbq
    simp only [runMain, hcfg, hsit, hsetup]
    rcases hbq with rfl | rfl <;> simp [turnOnBacklight, hres]

/-- Witness for C8 at a concrete input: internal-only setup, brightness
query succeeds with a non-zero value. -/
theorem backlight_policy_witness :
    (runMain (α := Nat) (fun s => some [s]) none ⟨true, false, none⟩
        ⟨[1], none⟩ none .ok (.output (some 5)) .ok).backlightRan = true ↔
      (ScreenSetup.mk (α := Nat) (some 1) none none).extResolution = none :=
  (backlight_policy (α := Nat) (fun s => some [s]) none ⟨true, false, none⟩
      ⟨[1], none⟩ none (.output (some 5)) .ok).1
    (fun _ => none) (commonInternalConnectorNames, none) ⟨some 1, none, none⟩
    rfl rfl rfl

/-- Claim C10: `turnOnBacklight` suppresses exactly the absent-binary and
non-zero-exit failures; when the query output does not parse as a decimal
number the resulting `ValueError` escapes `turnOnBacklight`, and in the full
run it aborts through the top-level handler (shown, then re-raised). -/
theorem turnOnBacklight_propagation {α : Type} [DecidableEq α]
    (split : String → Option (List String)) (cfile : Option (List String))
    (args : CmdArgs) (sit : ScreenSituation α) (fe : Option (ScreenSetup α))
    (bls : SubprocessResult) :
    (∃ eff, turnOnBacklight .notFound bls = .ok eff) ∧
    (∃ eff, turnOnBacklight .exitError bls = .ok eff) ∧
    (∀ v, ∃ eff, turnOnBacklight (.output (some v)) bls = .ok eff) ∧
    (turnOnBacklight (.output none) bls = .error .valueError) ∧
    (∀ config sc setup, loadConfigFile split cfile = .ok config →
      situationByConfig config = .ok sc →
      buildSetup args sit fe = .ok (some setup) →
      setup.extResolution = none →
      (runMain split cfile args sit fe .ok (.output none) bls).exit =
        .exception .valueError ∧
      (runMain split cfile args sit fe .ok (.output none) bls).errorShown =
        some .valueError) := by
  refine ⟨⟨_, rfl⟩, ⟨_, rfl⟩, ?_, rfl, ?_⟩
  · intro v
    by_cases hv : v = 0
    · rcases bls with _ | _ | _
      · exact ⟨⟨[], some ["xbacklight", "-set", "100"]⟩,
          by simp [turnOnBacklight, hv]⟩
      · exact ⟨⟨["xbacklight has not been found, unable to turn your laptop backlight on."],
          some ["xbacklight", "-set", "100"]⟩, by simp [turnOnBacklight, hv]⟩
      · exact ⟨⟨["xbacklight returned an error while attempting to turn your laptop backlight on."],
          some ["xbacklight", "-set", "100"]⟩, by simp [turnOnBacklight, hv]⟩
    · exact ⟨⟨[], none⟩, by simp [turnOnBacklight, hv]⟩
  · intro config sc setup hcfg hsit hsetup hres
    simp only [runMain, hcfg, hsit, hsetup]
    simp [turnOnBacklight, hres]

/-- Witness for C10 at a concrete input: internal-only setup, unparseable
brightness output. -/
theorem turnOnBacklight_propagation_witness :
    (runMain (α := Nat) (fun s => some [s]) none ⟨true, false, none⟩
        ⟨[1], none⟩ none .ok (.output none) .ok).exit =
      .exception .valueError ∧
    (runMain (α := Nat) (fun s => some [s]) none ⟨true, false, none⟩
        ⟨[1], none⟩ none .ok (.output none) .ok).errorShown =
      some .valueError :=
  (turnOnBacklight_propagation (α := Nat) (fun s => some [s]) none
      ⟨true, false, none⟩ ⟨[1], none⟩ none .ok).2.2.2.2
    (fun _ => none) (commonInternalConnectorNames, none) ⟨some 1, none, none⟩
    rfl rfl rfl rfl

end Dsl
